import Mathlib

/-!
Verification development for the Student-Portal backend.

The definitions below are shallow embeddings of the JavaScript source:
controllers become pure functions from an actor and the current document
state to an `Except` value (errors model thrown `ErrorResponse`s, the
`ok` payload models the persisted document), Mongoose documents become
structures, MongoDB update operators become list operations
(`$addToSet` appends when absent, `$pull` filters), and the HTTP layer
is dropped.  User and subject references are modelled as natural-number
ids.  Theorems about the claims follow the definitions.
-/

namespace StudentPortal

/-- Roles of the User schema (src/models/User.js): enum student, teacher, admin. -/
inductive Role where
  | student
  | teacher
  | admin
deriving DecidableEq, Repr

/-- An authenticated requester (req.user): its id and role. -/
structure Actor where
  id : Nat
  role : Role
deriving DecidableEq, Repr

/-- ErrorResponse thrown by controllers, tagged by its HTTP status family:
badRequest is 400, notAuthorized is 403, notFound is 404. -/
inductive Err where
  | badRequest (msg : String)
  | notAuthorized (msg : String)
  | notFound (msg : String)
deriving DecidableEq, Repr

/-- Whether a controller call succeeded (no ErrorResponse thrown). -/
def isSuccess {α : Type} : Except Err α → Bool
  | .ok _ => true
  | .error _ => false

/- ===== Resource visibility filter (src/utils/filterQuery.js) ===== -/

/-- Listing query parameters relevant to filterEducationalResources.  A field
is `some v` when the request query carries a (truthy) value for it. -/
structure ResourceQuery where
  branch : Option String
  year : Option Nat
  semester : Option Nat
  subject : Option Nat
deriving DecidableEq, Repr

/-- The branch/year/semester slice of the requesting user document that the
controllers pass as userData.  A field is `some v` when it is set (truthy)
on the profile. -/
structure UserData where
  branch : Option String
  year : Option Nat
  semester : Option Nat
deriving DecidableEq, Repr

/-- The Mongo filter object produced by filterEducationalResources.  A field
is `some v` when the filter constrains that attribute to v, `none` when the
attribute is left unconstrained. -/
structure ResourceFilter where
  branch : Option String
  year : Option Nat
  semester : Option Nat
  subject : Option Nat
deriving DecidableEq, Repr

/-- filterEducationalResources (src/utils/filterQuery.js lines 137-167):
each of branch, year, semester is taken from the query when present there,
otherwise from the user profile when the role is student and the profile
field is set, otherwise left out; the subject filter is copied from the
query unconditionally. -/
def filterEducationalResources (query : ResourceQuery) (userRole : Role)
    (userData : UserData) : ResourceFilter :=
  { branch :=
      match query.branch with
      | some b => some b
      | none => if userRole = .student then userData.branch else none
    year :=
      match query.year with
      | some y => some y
      | none => if userRole = .student then userData.year else none
    semester :=
      match query.semester with
      | some s => some s
      | none => if userRole = .student then userData.semester else none
    subject := query.subject }

/- ===== Group chats (src/models/Chat.js, community controller) ===== -/

/-- Mongo $addToSet on an array of ids: append the id when absent. -/
def addToSet (l : List Nat) (x : Nat) : List Nat :=
  if x ∈ l then l else l ++ [x]

/-- Mongo $pull on an array of ids: remove every occurrence of the id. -/
def pull (l : List Nat) (x : Nat) : List Nat :=
  l.filter (fun y => y ≠ x)

/-- A group chat document (ChatSchema): member array, groupAdmin reference,
visibility flags.  Scoping fields (subject/branch/year/semester) and
latestMessage are omitted: no membership operation reads them. -/
structure GroupChat where
  users : List Nat
  groupAdmin : Nat
  isPublic : Bool
  isGroupChat : Bool
deriving DecidableEq, Repr

/-- createGroupChat: the request user list plus the creator (users.push),
creator becomes groupAdmin, isGroupChat is set. -/
def createGroupChat (creator : Actor) (userIds : List Nat) (isPublic : Bool) :
    GroupChat :=
  { users := userIds ++ [creator.id]
    groupAdmin := creator.id
    isPublic := isPublic
    isGroupChat := true }

/-- joinGroup: only for public group chats, only for non-members; adds the
requester with $addToSet. -/
def joinGroup (actor : Actor) (c : GroupChat) : Except Err GroupChat :=
  if ¬ (c.isPublic ∧ c.isGroupChat) then
    .error (.badRequest "This chat is not a public group")
  else if actor.id ∈ c.users then
    .error (.badRequest "You are already a member of this group")
  else
    .ok { c with users := addToSet c.users actor.id }

/-- leaveGroup: only for members of a group chat, and the group admin is
blocked; removes the requester with $pull. -/
def leaveGroup (actor : Actor) (c : GroupChat) : Except Err GroupChat :=
  if ¬ c.isGroupChat then
    .error (.badRequest "This is not a group chat")
  else if actor.id ∉ c.users then
    .error (.badRequest "You are not a member of this group")
  else if c.groupAdmin = actor.id then
    .error (.badRequest "Group admin cannot leave. Transfer ownership first or delete the group")
  else
    .ok { c with users := pull c.users actor.id }

/-- addToGroup: allowed to the group admin or an app admin; adds the given
users with $addToSet/$each. -/
def addToGroup (actor : Actor) (userIds : List Nat) (c : GroupChat) :
    Except Err GroupChat :=
  if c.groupAdmin ≠ actor.id ∧ actor.role ≠ .admin then
    .error (.notAuthorized "Not authorized to add users to this group")
  else
    .ok { c with users := userIds.foldl addToSet c.users }

/-- removeFromGroup: allowed for self-removal, to the group admin, or to an
app admin; removing the group admin is refused unless the requester is an
app admin; removes the target with $pull. -/
def removeFromGroup (actor : Actor) (targetId : Nat) (c : GroupChat) :
    Except Err GroupChat :=
  let isSelfRemoval := targetId = actor.id
  let isGroupAdmin := c.groupAdmin = actor.id
  let isAppAdmin := actor.role = Role.admin
  if ¬ isSelfRemoval ∧ ¬ isGroupAdmin ∧ ¬ isAppAdmin then
    .error (.notAuthorized "Not authorized to remove users from this group")
  else if targetId = c.groupAdmin ∧ ¬ isAppAdmin then
    .error (.notAuthorized "Cannot remove the group admin")
  else
    .ok { c with users := pull c.users targetId }

/-- transferGroupOwnership: allowed to the group admin or an app admin; the
target must exist in the user collection (dbUsers) and be a member; the
groupAdmin reference is reassigned. -/
def transferGroupOwnership (actor : Actor) (targetId : Nat)
    (dbUsers : List Nat) (c : GroupChat) : Except Err GroupChat :=
  if c.groupAdmin ≠ actor.id ∧ actor.role ≠ .admin then
    .error (.notAuthorized "Not authorized to transfer group ownership")
  else if targetId ∉ dbUsers then
    .error (.notFound "Target user not found")
  else if targetId ∉ c.users then
    .error (.badRequest "Target user is not a member of this group")
  else
    .ok { c with groupAdmin := targetId }

/-- One exposed membership operation on an existing group chat. -/
inductive ChatEvent where
  | join (actor : Actor)
  | leave (actor : Actor)
  | addUsers (actor : Actor) (userIds : List Nat)
  | removeUser (actor : Actor) (targetId : Nat)
  | transfer (actor : Actor) (targetId : Nat) (dbUsers : List Nat)
deriving DecidableEq, Repr

/-- Run one membership operation through its controller. -/
def runChatEvent (e : ChatEvent) (c : GroupChat) : Except Err GroupChat :=
  match e with
  | .join a => joinGroup a c
  | .leave a => leaveGroup a c
  | .addUsers a ids => addToGroup a ids c
  | .removeUser a t => removeFromGroup a t c
  | .transfer a t db => transferGroupOwnership a t db c

/-- The persisted chat after a request: a thrown ErrorResponse leaves the
stored document unchanged. -/
def applyChatEvent (e : ChatEvent) (c : GroupChat) : GroupChat :=
  match runChatEvent e c with
  | .ok c2 => c2
  | .error _ => c

/-- Group-chat states reachable through the exposed operations, starting
from group creation. -/
inductive Reachable : GroupChat → Prop where
  | create (creator : Actor) (userIds : List Nat) (isPublic : Bool) :
      Reachable (createGroupChat creator userIds isPublic)
  | step (c : GroupChat) (e : ChatEvent) :
      Reachable c → Reachable (applyChatEvent e c)

/-- An app admin removing the current group admin via removeFromGroup: the
one exposed operation that evicts the admin from the member array. -/
def adminEviction (e : ChatEvent) (c : GroupChat) : Prop :=
  match e with
  | .removeUser a t => t = c.groupAdmin ∧ a.role = .admin
  | _ => False

instance (e : ChatEvent) (c : GroupChat) : Decidable (adminEviction e c) := by
  unfold adminEviction
  cases e <;> infer_instance

/-- Reachable states in which no app admin has ever removed the current
group admin. -/
inductive ReachableSafe : GroupChat → Prop where
  | create (creator : Actor) (userIds : List Nat) (isPublic : Bool) :
      ReachableSafe (createGroupChat creator userIds isPublic)
  | step (c : GroupChat) (e : ChatEvent) :
      ReachableSafe c → ¬ adminEviction e c →
      ReachableSafe (applyChatEvent e c)

/- ===== Messages and read tracking (src/models/Message.js, community controller) ===== -/

/-- One stored file attachment of a message or announcement. -/
structure Attachment where
  fileUrl : String
  filePath : String
  fileName : String
  fileSize : Nat
deriving DecidableEq, Repr

/-- A message document (MessageSchema): sender and chat references, readBy
array, attachments, soft-delete flag. -/
structure MessageDoc where
  sender : Nat
  content : String
  chat : Nat
  readBy : List Nat
  attachments : List Attachment
  isDeleted : Bool
deriving DecidableEq, Repr

/-- The slice of a chat document that getUnreadCount and getMessages read:
its id and member array. -/
structure ChatRef where
  id : Nat
  users : List Nat
deriving DecidableEq, Repr

/-- The Chat.find step of getUnreadCount: ids of every chat whose member
array contains the user. -/
def userChatIds (u : Nat) (chats : List ChatRef) : List Nat :=
  (chats.filter (fun c => u ∈ c.users)).map (fun c => c.id)

/-- The $match stage of the getUnreadCount aggregation: the message belongs
to one of the given chats, was sent by someone else, is not yet read by the
user, and is not soft-deleted. -/
def unreadMatch (u : Nat) (chatIds : List Nat) (m : MessageDoc) : Bool :=
  decide (m.chat ∈ chatIds) && decide (m.sender ≠ u) &&
    decide (u ∉ m.readBy) && !m.isDeleted

/-- Per-chat unread count: the size of the aggregation group of one chat. -/
def unreadCountInChat (u cid : Nat) (msgs : List MessageDoc) : Nat :=
  (msgs.filter (fun m =>
    decide (m.chat = cid) && decide (m.sender ≠ u) &&
      decide (u ∉ m.readBy) && !m.isDeleted)).length

/-- totalUnread of getUnreadCount: the aggregation matches the unread
messages, groups them by chat and sums the group sizes, which is the number
of matched messages. -/
def totalUnread (u : Nat) (chats : List ChatRef) (msgs : List MessageDoc) :
    Nat :=
  (msgs.filter (fun m => unreadMatch u (userChatIds u chats) m)).length

/-- The Message.updateMany side effect of getMessages: every message of the
chat not yet read by the user gets the user appended to readBy
($addToSet semantics). -/
def markMessagesRead (u cid : Nat) (msgs : List MessageDoc) :
    List MessageDoc :=
  msgs.map (fun m =>
    if m.chat = cid ∧ u ∉ m.readBy then { m with readBy := m.readBy ++ [u] }
    else m)

/-- getMessages: only members of the chat may read it; returns the requested
page of the chat messages together with the message store after the bulk
mark-as-read side effect (creation-time ordering is not modelled, so the
page is taken in store order). -/
def getMessages (u : Nat) (chat : ChatRef) (msgs : List MessageDoc)
    (page limit : Nat) : Except Err (List MessageDoc × List MessageDoc) :=
  if u ∉ chat.users then
    .error (.notAuthorized "Not authorized to access this chat")
  else
    let chatMsgs := msgs.filter (fun m => m.chat = chat.id)
    let pageMsgs := (chatMsgs.drop ((page - 1) * limit)).take limit
    .ok (pageMsgs, markMessagesRead u chat.id msgs)

/- ===== Notes (src/models/Note.js, notes controller) ===== -/

/-- Metadata of an uploaded file as produced by the upload middleware. -/
structure FileInfo where
  url : String
  path : String
  originalname : String
  size : Nat
deriving DecidableEq, Repr

/-- One entry of the ratings array of a note. -/
structure RatingEntry where
  rating : Nat
  comment : Option String
  user : Nat
deriving DecidableEq, Repr

/-- A note document (NoteSchema). -/
structure Note where
  title : String
  description : String
  subject : Nat
  branch : String
  year : Nat
  semester : Nat
  uploadedBy : Nat
  fileUrl : String
  filePath : String
  fileSize : Nat
  isVerified : Bool
  views : Nat
  downloads : Nat
  ratings : List RatingEntry
  averageRating : Rat
deriving DecidableEq, Repr

/-- Arithmetic mean of the stored rating values. -/
def noteMean (rs : List RatingEntry) : Rat :=
  (rs.map (fun r => (r.rating : Rat))).sum / rs.length

/-- The NoteSchema pre-save hook: averageRating is recomputed as the mean of
the ratings array, or 0 when it is empty, on every save. -/
def notePreSave (n : Note) : Note :=
  if n.ratings.length > 0 then { n with averageRating := noteMean n.ratings }
  else { n with averageRating := 0 }

/-- The request body of a note creation. -/
structure NoteCreateReq where
  title : String
  description : String
  subject : Nat
  branch : String
  year : Nat
  semester : Nat
deriving DecidableEq, Repr

/-- createNote: requires an uploaded file; the note is owned by the
requester and isVerified is false for a student uploader, true otherwise. -/
def createNote (actor : Actor) (req : NoteCreateReq) (file : Option FileInfo) :
    Except Err Note :=
  match file with
  | none => .error (.badRequest "Please upload a file")
  | some f =>
    .ok { title := req.title
          description := req.description
          subject := req.subject
          branch := req.branch
          year := req.year
          semester := req.semester
          uploadedBy := actor.id
          fileUrl := f.url
          filePath := f.path
          fileSize := f.size
          isVerified := if actor.role = .student then false else true
          views := 0
          downloads := 0
          ratings := []
          averageRating := 0 }

/-- The optional fields of a note update request body. -/
structure NoteUpdate where
  title : Option String
  description : Option String
  subject : Option Nat
  branch : Option String
  year : Option Nat
  semester : Option Nat
deriving DecidableEq, Repr

/-- updateNote: only the owner or an app admin may update; each provided
body field replaces the stored one, a new file replaces the stored file
(findByIdAndUpdate, so the pre-save hook does not run). -/
def updateNote (actor : Actor) (upd : NoteUpdate) (file : Option FileInfo)
    (n : Note) : Except Err Note :=
  if n.uploadedBy ≠ actor.id ∧ actor.role ≠ .admin then
    .error (.notAuthorized ("User " ++ toString actor.id ++ " is not authorized to update this note"))
  else
    let n1 := { n with
      title := upd.title.getD n.title
      description := upd.description.getD n.description
      subject := upd.subject.getD n.subject
      branch := upd.branch.getD n.branch
      year := upd.year.getD n.year
      semester := upd.semester.getD n.semester }
    match file with
    | some f =>
      .ok { n1 with fileUrl := f.url, filePath := f.path, fileSize := f.size }
    | none => .ok n1

/-- verifyNote, behind the authorize(admin, teacher) route middleware: sets
isVerified to true and saves. -/
def verifyNote (actor : Actor) (n : Note) : Except Err Note :=
  if actor.role = .admin ∨ actor.role = .teacher then
    .ok (notePreSave { n with isVerified := true })
  else
    .error (.notAuthorized "User role is not authorized to access this route")

/-- Replace the first rating entry of the given user: its value is
overwritten and its comment replaced when a new one is provided. -/
def updateFirstRating (u v : Nat) (comm : Option String) :
    List RatingEntry → List RatingEntry
  | [] => []
  | r :: rs =>
    if r.user = u then
      { r with rating := v,
               comment := match comm with | some c => some c | none => r.comment } :: rs
    else
      r :: updateFirstRating u v comm rs

/-- addRating: the value must lie in 1..5; a user who already rated gets the
existing entry overwritten, otherwise a new entry is appended; the
controller recomputes averageRating as the mean and the save runs the
pre-save hook. -/
def addRating (actor : Actor) (value : Nat) (comm : Option String)
    (n : Note) : Except Err Note :=
  if value < 1 ∨ value > 5 then
    .error (.badRequest "Please provide a valid rating between 1 and 5")
  else
    let ratings :=
      if n.ratings.any (fun r => r.user = actor.id) then
        updateFirstRating actor.id value comm n.ratings
      else
        n.ratings ++ [{ rating := value, comment := comm, user := actor.id }]
    .ok (notePreSave { n with ratings := ratings, averageRating := noteMean ratings })

/-- downloadNote: increments the download counter and saves. -/
def downloadNote (n : Note) : Note :=
  notePreSave { n with downloads := n.downloads + 1 }

/-- getNote and incrementNoteViews: increment the view counter and save. -/
def incrementNoteViews (n : Note) : Note :=
  notePreSave { n with views := n.views + 1 }

/-- One exposed mutating API operation on an existing note. -/
inductive NoteOp where
  | view
  | download
  | verify (actor : Actor)
  | update (actor : Actor) (upd : NoteUpdate) (file : Option FileInfo)
  | rate (actor : Actor) (value : Nat) (comm : Option String)
deriving DecidableEq, Repr

/-- Run one note operation through its controller. -/
def runNoteOp (op : NoteOp) (n : Note) : Except Err Note :=
  match op with
  | .view => .ok (incrementNoteViews n)
  | .download => .ok (downloadNote n)
  | .verify a => verifyNote a n
  | .update a upd file => updateNote a upd file n
  | .rate a v comm => addRating a v comm n

/-- The persisted note after a request: a thrown ErrorResponse leaves the
stored document unchanged. -/
def applyNoteOp (op : NoteOp) (n : Note) : Note :=
  match runNoteOp op n with
  | .ok n2 => n2
  | .error _ => n

/-- The persisted note after a sequence of requests. -/
def applyNoteOps (ops : List NoteOp) (n : Note) : Note :=
  ops.foldl (fun s op => applyNoteOp op s) n

/- ===== Videos (src/models/Video.js, src/controllers/videoController.js) ===== -/

/-- One entry of the comments array of a video. -/
structure CommentEntry where
  text : String
  user : Nat
deriving DecidableEq, Repr

/-- A video document (VideoSchema). -/
structure Video where
  title : String
  description : String
  videoUrl : String
  isYoutubeVideo : Bool
  subject : Nat
  branch : String
  year : Nat
  semester : Nat
  tags : List String
  uploadedBy : Nat
  isVerified : Bool
  views : Nat
  likes : Nat
  usersLiked : List Nat
  comments : List CommentEntry
deriving DecidableEq, Repr

/-- The request body of a video creation. -/
structure VideoCreateReq where
  title : String
  description : String
  subject : Nat
  branch : String
  year : Nat
  semester : Nat
  tags : List String
  youtubeUrl : Option String
deriving DecidableEq, Repr

/-- createVideo: requires either a YouTube URL or an uploaded file; the
video is owned by the requester and isVerified is false for a student
uploader, true otherwise. -/
def createVideo (actor : Actor) (req : VideoCreateReq)
    (file : Option FileInfo) : Except Err Video :=
  let base : Nat → String → Bool → Video := fun _ url yt =>
    { title := req.title
      description := req.description
      videoUrl := url
      isYoutubeVideo := yt
      subject := req.subject
      branch := req.branch
      year := req.year
      semester := req.semester
      tags := req.tags
      uploadedBy := actor.id
      isVerified := if actor.role = .student then false else true
      views := 0
      likes := 0
      usersLiked := []
      comments := [] }
  match req.youtubeUrl, file with
  | some url, _ => .ok (base actor.id url true)
  | none, some f => .ok (base actor.id f.url false)
  | none, none =>
    .error (.badRequest "Please provide either a YouTube URL or upload a video file")

/-- The optional fields of a video update request body. -/
structure VideoUpdate where
  title : Option String
  description : Option String
  subject : Option Nat
  branch : Option String
  year : Option Nat
  semester : Option Nat
  tags : Option (List String)
  youtubeUrl : Option String
deriving DecidableEq, Repr

/-- updateVideo: only the owner or an app admin may update; each provided
body field replaces the stored one; a new YouTube URL replaces the video
source reference. -/
def updateVideo (actor : Actor) (upd : VideoUpdate) (v : Video) :
    Except Err Video :=
  if v.uploadedBy ≠ actor.id ∧ actor.role ≠ .admin then
    .error (.notAuthorized ("User " ++ toString actor.id ++ " is not authorized to update this video"))
  else
    let v1 := { v with
      title := upd.title.getD v.title
      description := upd.description.getD v.description
      subject := upd.subject.getD v.subject
      branch := upd.branch.getD v.branch
      year := upd.year.getD v.year
      semester := upd.semester.getD v.semester
      tags := upd.tags.getD v.tags }
    match upd.youtubeUrl with
    | some url =>
      if url ≠ v.videoUrl then
        .ok { v1 with isYoutubeVideo := true, videoUrl := url }
      else
        .ok v1
    | none => .ok v1

/-- verifyVideo, behind the authorize(admin, teacher) route middleware: sets
isVerified to true and saves. -/
def verifyVideo (actor : Actor) (v : Video) : Except Err Video :=
  if actor.role = .admin ∨ actor.role = .teacher then
    .ok { v with isVerified := true }
  else
    .error (.notAuthorized "User role is not authorized to access this route")

/-- likeVideo: a toggle keyed on the usersLiked array; the likes counter is
bumped or decremented with a floor of zero. -/
def likeVideo (actor : Actor) (v : Video) : Video :=
  if actor.id ∈ v.usersLiked then
    { v with likes := v.likes - 1
             usersLiked := v.usersLiked.filter (fun u => u ≠ actor.id) }
  else
    { v with likes := v.likes + 1, usersLiked := v.usersLiked ++ [actor.id] }

/-- addComment: requires a comment text and appends the comment. -/
def addComment (actor : Actor) (text : String) (v : Video) :
    Except Err Video :=
  if text = "" then
    .error (.badRequest "Please provide comment text")
  else
    .ok { v with comments := v.comments ++ [{ text := text, user := actor.id }] }

/-- deleteComment: comment subdocument ids are modelled as positions in the
comments array; only the author of the comment or an app admin may delete
it. -/
def deleteComment (actor : Actor) (idx : Nat) (v : Video) :
    Except Err Video :=
  match v.comments[idx]? with
  | none => .error (.notFound "Comment not found")
  | some c =>
    if c.user ≠ actor.id ∧ actor.role ≠ .admin then
      .error (.notAuthorized ("User " ++ toString actor.id ++ " is not authorized to delete this comment"))
    else
      .ok { v with comments := v.comments.eraseIdx idx }

/-- One exposed mutating API operation on an existing video. -/
inductive VideoOp where
  | view
  | verify (actor : Actor)
  | update (actor : Actor) (upd : VideoUpdate)
  | like (actor : Actor)
  | comment (actor : Actor) (text : String)
  | uncomment (actor : Actor) (idx : Nat)
deriving DecidableEq, Repr

/-- Run one video operation through its controller. -/
def runVideoOp (op : VideoOp) (v : Video) : Except Err Video :=
  match op with
  | .view => .ok { v with views := v.views + 1 }
  | .verify a => verifyVideo a v
  | .update a upd => updateVideo a upd v
  | .like a => .ok (likeVideo a v)
  | .comment a t => addComment a t v
  | .uncomment a i => deleteComment a i v

/-- The persisted video after a request: a thrown ErrorResponse leaves the
stored document unchanged. -/
def applyVideoOp (op : VideoOp) (v : Video) : Video :=
  match runVideoOp op v with
  | .ok v2 => v2
  | .error _ => v

/-- The persisted video after a sequence of requests. -/
def applyVideoOps (ops : List VideoOp) (v : Video) : Video :=
  ops.foldl (fun s op => applyVideoOp op s) v

/- ===== PYQs (src/unnamed/part_007 PYQSchema, PYQ controller) ===== -/

/-- A previous-year-question document (PYQSchema). -/
structure PYQ where
  title : String
  description : String
  subject : Nat
  branch : String
  year : Nat
  semester : Nat
  examType : String
  examYear : Nat
  uploadedBy : Nat
  fileUrl : String
  filePath : String
  isVerified : Bool
  hasSolution : Bool
  solutionFileUrl : Option String
  solutionFilePath : Option String
  difficulty : String
  totalMarks : Nat
  duration : Nat
  views : Nat
  downloads : Nat
deriving DecidableEq, Repr

/-- The request body of a PYQ creation. -/
structure PYQCreateReq where
  title : String
  description : String
  subject : Nat
  branch : String
  year : Nat
  semester : Nat
  examType : String
  examYear : Nat
  difficulty : Option String
  totalMarks : Option Nat
  duration : Option Nat
deriving DecidableEq, Repr

/-- createPYQ: requires an uploaded question file; the PYQ is owned by the
requester, isVerified is false for a student uploader and true otherwise,
and a solution file may be attached in the same request. -/
def createPYQ (actor : Actor) (req : PYQCreateReq) (file : Option FileInfo)
    (solutionFile : Option FileInfo) : Except Err PYQ :=
  match file with
  | none => .error (.badRequest "Please upload a question file")
  | some f =>
    let p : PYQ :=
      { title := req.title
        description := req.description
        subject := req.subject
        branch := req.branch
        year := req.year
        semester := req.semester
        examType := req.examType
        examYear := req.examYear
        uploadedBy := actor.id
        fileUrl := f.url
        filePath := f.path
        isVerified := if actor.role = .student then false else true
        hasSolution := false
        solutionFileUrl := none
        solutionFilePath := none
        difficulty := req.difficulty.getD "Medium"
        totalMarks := req.totalMarks.getD 0
        duration := req.duration.getD 0
        views := 0
        downloads := 0 }
    match solutionFile with
    | some sf =>
      .ok { p with hasSolution := true
                   solutionFileUrl := some sf.url
                   solutionFilePath := some sf.path }
    | none => .ok p

/-- The optional fields of a PYQ update request body. -/
structure PYQUpdate where
  title : Option String
  description : Option String
  subject : Option Nat
  branch : Option String
  year : Option Nat
  semester : Option Nat
  examType : Option String
  examYear : Option Nat
  difficulty : Option String
  totalMarks : Option Nat
  duration : Option Nat
deriving DecidableEq, Repr

/-- updatePYQ: only the owner or an app admin may update; each provided
body field replaces the stored one; new question or solution files replace
the stored files. -/
def updatePYQ (actor : Actor) (upd : PYQUpdate) (file : Option FileInfo)
    (solutionFile : Option FileInfo) (p : PYQ) : Except Err PYQ :=
  if p.uploadedBy ≠ actor.id ∧ actor.role ≠ .admin then
    .error (.notAuthorized ("User " ++ toString actor.id ++ " is not authorized to update this PYQ"))
  else
    let p1 := { p with
      title := upd.title.getD p.title
      description := upd.description.getD p.description
      subject := upd.subject.getD p.subject
      branch := upd.branch.getD p.branch
      year := upd.year.getD p.year
      semester := upd.semester.getD p.semester
      examType := upd.examType.getD p.examType
      examYear := upd.examYear.getD p.examYear
      difficulty := upd.difficulty.getD p.difficulty
      totalMarks := upd.totalMarks.getD p.totalMarks
      duration := upd.duration.getD p.duration }
    let p2 :=
      match file with
      | some f => { p1 with fileUrl := f.url, filePath := f.path }
      | none => p1
    match solutionFile with
    | some sf =>
      .ok { p2 with hasSolution := true
                    solutionFileUrl := some sf.url
                    solutionFilePath := some sf.path }
    | none => .ok p2

/-- addSolution, behind the authorize(admin, teacher) route middleware:
requires a solution file and attaches it. -/
def addSolution (actor : Actor) (file : Option FileInfo) (p : PYQ) :
    Except Err PYQ :=
  if ¬ (actor.role = .admin ∨ actor.role = .teacher) then
    .error (.notAuthorized "User role is not authorized to access this route")
  else
    match file with
    | none => .error (.badRequest "Please upload a solution file")
    | some f =>
      .ok { p with hasSolution := true
                   solutionFileUrl := some f.url
                   solutionFilePath := some f.path }

/-- verifyPYQ, behind the authorize(admin, teacher) route middleware: sets
isVerified to true and saves. -/
def verifyPYQ (actor : Actor) (p : PYQ) : Except Err PYQ :=
  if actor.role = .admin ∨ actor.role = .teacher then
    .ok { p with isVerified := true }
  else
    .error (.notAuthorized "User role is not authorized to access this route")

/-- One exposed mutating API operation on an existing PYQ. -/
inductive PYQOp where
  | view
  | download
  | verify (actor : Actor)
  | update (actor : Actor) (upd : PYQUpdate) (file : Option FileInfo)
      (solutionFile : Option FileInfo)
  | solution (actor : Actor) (file : Option FileInfo)
deriving DecidableEq, Repr

/-- Run one PYQ operation through its controller. -/
def runPYQOp (op : PYQOp) (p : PYQ) : Except Err PYQ :=
  match op with
  | .view => .ok { p with views := p.views + 1 }
  | .download => .ok { p with downloads := p.downloads + 1 }
  | .verify a => verifyPYQ a p
  | .update a upd f sf => updatePYQ a upd f sf p
  | .solution a f => addSolution a f p

/-- The persisted PYQ after a request: a thrown ErrorResponse leaves the
stored document unchanged. -/
def applyPYQOp (op : PYQOp) (p : PYQ) : PYQ :=
  match runPYQOp op p with
  | .ok p2 => p2
  | .error _ => p

/-- The persisted PYQ after a sequence of requests. -/
def applyPYQOps (ops : List PYQOp) (p : PYQ) : PYQ :=
  ops.foldl (fun s op => applyPYQOp op s) p

/- ===== Syllabi (src/models/Syllabus.js, syllabus controller) ===== -/

/-- A syllabus document (SyllabusSchema).  The schema declares no isVerified
path: a syllabus carries no verification flag. -/
structure Syllabus where
  title : String
  description : String
  branch : String
  year : Nat
  semester : Nat
  subject : Nat
  uploadedBy : Nat
  fileUrl : String
  filePath : String
  isActive : Bool
  totalMarks : Nat
  passingMarks : Nat
  examPattern : String
  views : Nat
  downloads : Nat
deriving DecidableEq, Repr

/-- The request body of a syllabus creation. -/
structure SyllabusCreateReq where
  title : String
  description : String
  branch : String
  year : Nat
  semester : Nat
  subject : Nat
  totalMarks : Nat
  passingMarks : Nat
  examPattern : String
deriving DecidableEq, Repr

/-- createSyllabus, behind the authorize(admin, teacher) route middleware:
requires an uploaded file; the created document has exactly the SyllabusSchema
fields, which include no isVerified flag. -/
def createSyllabus (actor : Actor) (req : SyllabusCreateReq)
    (file : Option FileInfo) : Except Err Syllabus :=
  if ¬ (actor.role = .admin ∨ actor.role = .teacher) then
    .error (.notAuthorized "User role is not authorized to access this route")
  else
    match file with
    | none => .error (.badRequest "Please upload a file")
    | some f =>
      .ok { title := req.title
            description := req.description
            branch := req.branch
            year := req.year
            semester := req.semester
            subject := req.subject
            uploadedBy := actor.id
            fileUrl := f.url
            filePath := f.path
            isActive := true
            totalMarks := req.totalMarks
            passingMarks := req.passingMarks
            examPattern := req.examPattern
            views := 0
            downloads := 0 }

/-- The value of the isVerified field of a stored syllabus document, as an
optional Boolean because a Mongo document may lack a field: SyllabusSchema
declares no isVerified path and createSyllabus sets none, so the field is
absent from every syllabus document. -/
def syllabusIsVerifiedField (_s : Syllabus) : Option Bool :=
  none

/-- The slice of a verifiable content document (note, video or PYQ) that
verifyContent reads and writes. -/
structure VerifiableContent where
  id : Nat
  title : String
  uploadedBy : Nat
  isVerified : Bool
deriving DecidableEq, Repr

/-- Observable steps of a verifyContent request, in execution order. -/
inductive VerifyEv where
  | persisted (contentId : Nat) (isVerified : Bool)
  | notifyAttempt (target : Nat) (delivered : Bool)
deriving DecidableEq, Repr

/-- Outcome of a successful verifyContent request: the content collection
after the save, whether the HTTP response reported success, and the ordered
side effects. -/
structure VerifyResult where
  db : List VerifiableContent
  httpSuccess : Bool
  events : List VerifyEv
deriving DecidableEq, Repr

/-- verifyContent: looks the content up by id (404 when absent), persists
isVerified = true, then attempts a notification to the uploader inside a
try/catch whose catch only logs, so the response reports success whatever
the notification outcome (notifyDelivered) was. -/
def verifyContent (notifyDelivered : Bool) (db : List VerifiableContent)
    (contentId : Nat) : Except Err VerifyResult :=
  match db.find? (fun c => c.id = contentId) with
  | none => .error (.notFound "content not found with given id")
  | some c =>
    let saved := { c with isVerified := true }
    let db2 := db.map (fun x => if x.id = contentId then saved else x)
    .ok { db := db2
          httpSuccess := true
          events := [.persisted contentId true,
                     .notifyAttempt c.uploadedBy notifyDelivered] }

/-- Outcome of one per-type verify endpoint: the stored document, whether
the HTTP response reported success, and the notification attempts the
request dispatched. -/
structure VerifyRequestOutcome (α : Type) where
  content : α
  httpSuccess : Bool
  notifications : List VerifyEv

/-- verifyNote as a full request (part_006 lines 1544-1559), behind the
authorize(admin, teacher) route middleware: persists isVerified = true via
save (running the pre-save hook) and responds success.  The handler body
contains no notifyUsers call, so the request dispatches no notification. -/
def verifyNoteRequest (actor : Actor) (n : Note) :
    Except Err (VerifyRequestOutcome Note) :=
  if actor.role = .admin ∨ actor.role = .teacher then
    .ok { content := notePreSave { n with isVerified := true }
          httpSuccess := true
          notifications := [] }
  else
    .error (.notAuthorized "User role is not authorized to access this route")

/-- verifyVideo as a full request (videoController lines 252-267), behind
the authorize(admin, teacher) route middleware: persists isVerified = true
and responds success.  The handler body contains no notifyUsers call, so
the request dispatches no notification. -/
def verifyVideoRequest (actor : Actor) (v : Video) :
    Except Err (VerifyRequestOutcome Video) :=
  if actor.role = .admin ∨ actor.role = .teacher then
    .ok { content := { v with isVerified := true }
          httpSuccess := true
          notifications := [] }
  else
    .error (.notAuthorized "User role is not authorized to access this route")

/-- verifyPYQ as a full request (part_006 lines 2181-2196), behind the
authorize(admin, teacher) route middleware: persists isVerified = true and
responds success.  The handler body contains no notifyUsers call, so the
request dispatches no notification. -/
def verifyPYQRequest (actor : Actor) (p : PYQ) :
    Except Err (VerifyRequestOutcome PYQ) :=
  if actor.role = .admin ∨ actor.role = .teacher then
    .ok { content := { p with isVerified := true }
          httpSuccess := true
          notifications := [] }
  else
    .error (.notAuthorized "User role is not authorized to access this route")

/- ===== Registration (src/unnamed/part_005 register) ===== -/

/-- The request body of a direct registration. -/
structure RegisterReq where
  name : String
  email : String
  phone : Option String
  password : String
  role : Option String
  branch : Option String
  year : Option Nat
  semester : Option Nat
  rollNumber : Option String
deriving DecidableEq, Repr

/-- The slice of a created user document that registration determines. -/
structure UserDoc where
  name : String
  email : String
  role : String
  branch : Option String
  year : Option Nat
  semester : Option Nat
  isVerified : Bool
deriving DecidableEq, Repr

/-- register: rejects an already-registered email, rejects any supplied role
other than student, and otherwise creates the user with role forced to
student and isVerified false. -/
def register (existingEmails : List String) (req : RegisterReq) :
    Except Err UserDoc :=
  if req.email ∈ existingEmails then
    .error (.badRequest "Email already registered")
  else
    match req.role with
    | some r =>
      if r ≠ "student" then
        .error (.badRequest "Only students can register directly")
      else
        .ok { name := req.name, email := req.email, role := "student"
              branch := req.branch, year := req.year, semester := req.semester
              isVerified := false }
    | none =>
      .ok { name := req.name, email := req.email, role := "student"
            branch := req.branch, year := req.year, semester := req.semester
            isVerified := false }

/- ===== Spec-side definition for the unread-count claim ===== -/

/-- Formalisation of the spec sentence for the unread count, to be compared
with the implementation-derived totalUnread: the number of messages, across
all chats whose member set contains the user, whose sender is not the user,
where the user is absent from readBy and which are not soft-deleted. -/
def specUnreadTotal (u : Nat) (chats : List ChatRef)
    (msgs : List MessageDoc) : Nat :=
  (msgs.filter (fun m =>
    decide ((∃ c ∈ chats, c.id = m.chat ∧ u ∈ c.users) ∧
      m.sender ≠ u ∧ u ∉ m.readBy ∧ m.isDeleted = false))).length

/- ===== Concrete instances used by the witness and counterexample theorems ===== -/

/-- Concrete listing query: explicit branch, nothing else. -/
def c1Query : ResourceQuery :=
  { branch := some "CSE", year := none, semester := none, subject := none }

/-- Concrete student profile data. -/
def c1User : UserData :=
  { branch := some "ECE", year := some 2, semester := none }

/-- Group chat created by user 1 (a student) with member 2, public. -/
def c2Chat0 : GroupChat := createGroupChat ⟨1, .student⟩ [2] true

/-- The chat after an app admin (id 99) removes the group admin (user 1). -/
def c2ChatBad : GroupChat := applyChatEvent (.removeUser ⟨99, .admin⟩ 1) c2Chat0

/-- A verified note owned by user 3. -/
def c3Note : Note :=
  { title := "t", description := "d", subject := 4, branch := "CSE"
    year := 2, semester := 3, uploadedBy := 3, fileUrl := "u", filePath := "p"
    fileSize := 10, isVerified := true, views := 0, downloads := 0
    ratings := [], averageRating := 0 }

/-- A verified video owned by user 3. -/
def c3Video : Video :=
  { title := "t", description := "d", videoUrl := "u", isYoutubeVideo := false
    subject := 4, branch := "CSE", year := 2, semester := 3, tags := []
    uploadedBy := 3, isVerified := true, views := 0, likes := 0
    usersLiked := [], comments := [] }

/-- A verified PYQ owned by user 3. -/
def c3PYQ : PYQ :=
  { title := "t", description := "d", subject := 4, branch := "CSE"
    year := 2, semester := 3, examType := "End-Term", examYear := 2023
    uploadedBy := 3, fileUrl := "u", filePath := "p", isVerified := true
    hasSolution := false, solutionFileUrl := none, solutionFilePath := none
    difficulty := "Medium", totalMarks := 100, duration := 180
    views := 0, downloads := 0 }

/-- A sequence of note requests: a view, an update by the owner and a rating. -/
def c3NoteOps : List NoteOp :=
  [.view,
   .update ⟨3, .student⟩
     { title := some "t2", description := none, subject := none
       branch := none, year := none, semester := none } none,
   .rate ⟨5, .student⟩ 4 none]

/-- A teacher actor. -/
def c4Teacher : Actor := ⟨7, .teacher⟩

/-- A student actor. -/
def c4Student : Actor := ⟨8, .student⟩

/-- A concrete syllabus creation request body. -/
def c4SyllReq : SyllabusCreateReq :=
  { title := "DSA Syllabus", description := "d", branch := "CSE", year := 2
    semester := 3, subject := 11, totalMarks := 100, passingMarks := 35
    examPattern := "3 hour written exam" }

/-- A concrete uploaded file. -/
def c4File : FileInfo :=
  { url := "u", path := "p", originalname := "f.pdf", size := 100 }

/-- A concrete note creation request body. -/
def c4NoteReq : NoteCreateReq :=
  { title := "n", description := "d", subject := 11, branch := "CSE"
    year := 2, semester := 3 }

/-- The note document created by c4Teacher from c4NoteReq and c4File. -/
def c4TeacherNote : Note :=
  { title := "n", description := "d", subject := 11, branch := "CSE"
    year := 2, semester := 3, uploadedBy := 7, fileUrl := "u", filePath := "p"
    fileSize := 100, isVerified := true, views := 0, downloads := 0
    ratings := [], averageRating := 0 }

/-- The note document created by c4Student from c4NoteReq and c4File. -/
def c4StudentNote : Note :=
  { title := "n", description := "d", subject := 11, branch := "CSE"
    year := 2, semester := 3, uploadedBy := 8, fileUrl := "u", filePath := "p"
    fileSize := 100, isVerified := false, views := 0, downloads := 0
    ratings := [], averageRating := 0 }

/-- Chat collection for the unread-count witness: user 1 belongs to chat 10,
not to chat 20. -/
def c6Chats : List ChatRef :=
  [{ id := 10, users := [1, 2] }, { id := 20, users := [2, 3] }]

/-- Message store for the unread-count witness: one unread message for user
1 in chat 10, one message of an unrelated chat, one already-read message. -/
def c6Msgs : List MessageDoc :=
  [{ sender := 2, content := "a", chat := 10, readBy := [2]
     attachments := [], isDeleted := false },
   { sender := 2, content := "b", chat := 20, readBy := [2]
     attachments := [], isDeleted := false },
   { sender := 2, content := "c", chat := 10, readBy := [2, 1]
     attachments := [], isDeleted := false }]

/-- The chat whose page user 1 fetches in the unread-count witness. -/
def c6Chat : ChatRef := { id := 10, users := [1, 2] }

/-- A note with one existing rating by user 5, for the rating witness. -/
def c7Note : Note :=
  { title := "t", description := "d", subject := 4, branch := "CSE"
    year := 2, semester := 3, uploadedBy := 3, fileUrl := "u", filePath := "p"
    fileSize := 10, isVerified := true, views := 0, downloads := 0
    ratings := [{ rating := 2, comment := none, user := 5 }]
    averageRating := 2 }

/-- The note stored after user 5 rates c7Note again with value 4. -/
def c7NoteRated : Note :=
  ((addRating ⟨5, .student⟩ 4 none c7Note).toOption).getD c7Note

/-- A group chat administered by user 1 with member 2, for the idempotent-add
witness. -/
def c8Chat : GroupChat :=
  { users := [1, 2], groupAdmin := 1, isPublic := true, isGroupChat := true }

/-- A content collection with one unverified note-like document, id 6,
uploaded by user 8. -/
def c9Db : List VerifiableContent :=
  [{ id := 6, title := "t", uploadedBy := 8, isVerified := false }]

/-- An unverified note uploaded by user 8, verified through the per-type
verifyNote endpoint in the notification counterexample. -/
def c9Note : Note :=
  { title := "t", description := "d", subject := 4, branch := "CSE"
    year := 2, semester := 3, uploadedBy := 8, fileUrl := "u", filePath := "p"
    fileSize := 10, isVerified := false, views := 0, downloads := 0
    ratings := [], averageRating := 0 }

/-- A registration request that asks for the teacher role. -/
def c10BadReq : RegisterReq :=
  { name := "a", email := "a@b.co", phone := none, password := "secret1"
    role := some "teacher", branch := none, year := none, semester := none
    rollNumber := none }

/-- A plain student registration request. -/
def c10OkReq : RegisterReq :=
  { name := "a", email := "a@b.co", phone := none, password := "secret1"
    role := none, branch := some "Computer Science", year := some 2
    semester := some 3, rollNumber := none }

/-- The user document that c10OkReq creates. -/
def c10User : UserDoc :=
  { name := "a", email := "a@b.co", role := "student"
    branch := some "Computer Science", year := some 2, semester := some 3
    isVerified := false }

/- ===== Theorems ===== -/

/-- C1: for every actor and listing query, the visibility filter constrains
each of branch, year and semester to the explicit query value when the query
supplies one; otherwise, for a student whose corresponding profile field is
set, to that profile value; otherwise it leaves the field unconstrained, and
the subject constraint is present exactly when the query names a subject,
regardless of role. -/
theorem c1_visibility_filter (q : ResourceQuery) (role : Role) (u : UserData) :
    (∀ b, q.branch = some b → (filterEducationalResources q role u).branch = some b) ∧
    (∀ b, q.branch = none → role = .student → u.branch = some b →
      (filterEducationalResources q role u).branch = some b) ∧
    (q.branch = none → (role ≠ .student ∨ u.branch = none) →
      (filterEducationalResources q role u).branch = none) ∧
    (∀ y, q.year = some y → (filterEducationalResources q role u).year = some y) ∧
    (∀ y, q.year = none → role = .student → u.year = some y →
      (filterEducationalResources q role u).year = some y) ∧
    (q.year = none → (role ≠ .student ∨ u.year = none) →
      (filterEducationalResources q role u).year = none) ∧
    (∀ s, q.semester = some s → (filterEducationalResources q role u).semester = some s) ∧
    (∀ s, q.semester = none → role = .student → u.semester = some s →
      (filterEducationalResources q role u).semester = some s) ∧
    (q.semester = none → (role ≠ .student ∨ u.semester = none) →
      (filterEducationalResources q role u).semester = none) ∧
    (filterEducationalResources q role u).subject = q.subject := by
  unfold filterEducationalResources
  refine ⟨?_, ?_, ?_, ?_, ?_, ?_, ?_, ?_, ?_, rfl⟩
  · intro b hb; simp [hb]
  · intro b hb hr hu; simp [hb, hr, hu]
  · intro hb hor
    rcases hor with hr | hu
    · simp [hb, hr]
    · cases hr : role <;> simp [hb, hr, hu]
  · intro y hy; simp [hy]
  · intro y hy hr hu; simp [hy, hr, hu]
  · intro hy hor
    rcases hor with hr | hu
    · simp [hy, hr]
    · cases hr : role <;> simp [hy, hr, hu]
  · intro s hs; simp [hs]
  · intro s hs hr hu; simp [hs, hr, hu]
  · intro hs hor
    rcases hor with hr | hu
    · simp [hs, hr]
    · cases hr : role <;> simp [hs, hr, hu]

/-- Witness for C1 at a concrete query and student profile: the explicit
branch wins over the profile branch, the profile year fills the missing
query year, the unset profile semester leaves semester unconstrained. -/
theorem c1_visibility_filter_witness :
    (filterEducationalResources c1Query .student c1User).branch = some "CSE" ∧
    (filterEducationalResources c1Query .student c1User).year = some 2 ∧
    (filterEducationalResources c1Query .student c1User).semester = none := by
  refine ⟨(c1_visibility_filter c1Query .student c1User).1 "CSE" rfl,
          (c1_visibility_filter c1Query .student c1User).2.2.2.2.1 2 rfl rfl rfl,
          (c1_visibility_filter c1Query .student c1User).2.2.2.2.2.2.2.2.1 rfl
            (Or.inr rfl)⟩

/-- C10: a direct registration that asks for a role other than student fails
with a validation error and creates no user; every user created by direct
registration has role student and isVerified false, whatever role value the
caller supplied. -/
theorem c10_register_student_only (emails : List String) (req : RegisterReq) :
    (∀ r, req.role = some r → r ≠ "student" →
      isSuccess (register emails req) = false) ∧
    (∀ u, register emails req = .ok u →
      u.role = "student" ∧ u.isVerified = false) := by
  constructor
  · intro r hr hne
    by_cases hmail : req.email ∈ emails
    · simp [register, isSuccess, hmail]
    · simp [register, isSuccess, hmail, hr, hne]
  · intro u hu
    by_cases hmail : req.email ∈ emails
    · simp [register, hmail] at hu
    · cases hrole : req.role with
      | some r =>
        by_cases hs : r = "student"
        · simp [register, hmail, hrole, hs] at hu
          subst hu
          exact ⟨rfl, rfl⟩
        · simp [register, hmail, hrole, hs] at hu
      | none =>
        simp [register, hmail, hrole] at hu
        subst hu
        exact ⟨rfl, rfl⟩

/-- Witness for C10: the teacher-role request is rejected, and the created
student user has role student and isVerified false. -/
theorem c10_register_student_only_witness :
    isSuccess (register [] c10BadReq) = false ∧
    (c10User.role = "student" ∧ c10User.isVerified = false) :=
  ⟨(c10_register_student_only [] c10BadReq).1 "teacher" rfl (by decide),
   (c10_register_student_only [] c10OkReq).2 c10User rfl⟩

/-- C4, counterexample: a successful syllabus creation by a teacher yields a
document whose isVerified field is absent, not true, because the
SyllabusSchema declares no isVerified path. -/
theorem c4_counterexample :
    isSuccess (createSyllabus c4Teacher c4SyllReq (some c4File)) = true ∧
    (createSyllabus c4Teacher c4SyllReq (some c4File)).map
      syllabusIsVerifiedField ≠ Except.ok (some true) := by
  refine ⟨rfl, ?_⟩
  intro h
  simp [createSyllabus, c4Teacher, syllabusIsVerifiedField, Except.map] at h

/-- C4, amended: every successful creation of a Note, Video or PYQ has
isVerified true when the uploader is a teacher or admin and false when the
uploader is a student; a successful Syllabus creation yields a document with
no isVerified field at all. -/
theorem c4_amended_created_isVerified :
    (∀ (a : Actor) (req : NoteCreateReq) (file : Option FileInfo) (n : Note),
      createNote a req file = .ok n →
      ((a.role = .teacher ∨ a.role = .admin) → n.isVerified = true) ∧
      (a.role = .student → n.isVerified = false)) ∧
    (∀ (a : Actor) (req : VideoCreateReq) (file : Option FileInfo) (v : Video),
      createVideo a req file = .ok v →
      ((a.role = .teacher ∨ a.role = .admin) → v.isVerified = true) ∧
      (a.role = .student → v.isVerified = false)) ∧
    (∀ (a : Actor) (req : PYQCreateReq) (file sf : Option FileInfo) (p : PYQ),
      createPYQ a req file sf = .ok p →
      ((a.role = .teacher ∨ a.role = .admin) → p.isVerified = true) ∧
      (a.role = .student → p.isVerified = false)) ∧
    (∀ (a : Actor) (req : SyllabusCreateReq) (file : Option FileInfo)
        (s : Syllabus),
      createSyllabus a req file = .ok s → syllabusIsVerifiedField s = none) := by
  refine ⟨?_, ?_, ?_, ?_⟩
  · intro a req file n hu
    cases file with
    | none => simp [createNote] at hu
    | some f =>
      simp [createNote] at hu
      subst hu
      constructor
      · rintro (h | h) <;> simp [h]
      · intro h; simp [h]
  · intro a req file v hu
    cases hurl : req.youtubeUrl with
    | some url =>
      simp [createVideo, hurl] at hu
      subst hu
      constructor
      · rintro (h | h) <;> simp [h]
      · intro h; simp [h]
    | none =>
      cases file with
      | none => simp [createVideo, hurl] at hu
      | some f =>
        simp [createVideo, hurl] at hu
        subst hu
        constructor
        · rintro (h | h) <;> simp [h]
        · intro h; simp [h]
  · intro a req file sf p hu
    cases file with
    | none => simp [createPYQ] at hu
    | some f =>
      cases sf with
      | none =>
        simp [createPYQ] at hu
        subst hu
        constructor
        · rintro (h | h) <;> simp [h]
        · intro h; simp [h]
      | some s =>
        simp [createPYQ] at hu
        subst hu
        constructor
        · rintro (h | h) <;> simp [h]
        · intro h; simp [h]
  · intro a req file s hu
    rfl

/-- Witness for the amended C4: a teacher upload creates a verified note, a
student upload creates an unverified note. -/
theorem c4_amended_created_isVerified_witness :
    isSuccess (createNote c4Teacher c4NoteReq (some c4File)) = true ∧
    c4TeacherNote.isVerified = true ∧
    isSuccess (createNote c4Student c4NoteReq (some c4File)) = true ∧
    c4StudentNote.isVerified = false :=
  ⟨rfl,
   (c4_amended_created_isVerified.1 c4Teacher c4NoteReq (some c4File)
     c4TeacherNote rfl).1 (Or.inl rfl),
   rfl,
   (c4_amended_created_isVerified.1 c4Student c4NoteReq (some c4File)
     c4StudentNote rfl).2 rfl⟩

/-- C8: when the requester is the group admin or an app admin, adding a user
already in the member array is a no-op returning the unchanged chat, and
adding a fresh user twice yields a member array of the original length plus
one, the second call being a no-op. -/
theorem c8_addToGroup_idempotent (a : Actor) (c : GroupChat) (u : Nat)
    (hauth : c.groupAdmin = a.id ∨ a.role = .admin) :
    (u ∈ c.users → addToGroup a [u] c = .ok c) ∧
    (u ∉ c.users →
      addToGroup a [u] c = .ok { c with users := c.users ++ [u] } ∧
      (c.users ++ [u]).length = c.users.length + 1 ∧
      addToGroup a [u] { c with users := c.users ++ [u] } =
        .ok { c with users := c.users ++ [u] }) := by
  have hg : ¬ (c.groupAdmin ≠ a.id ∧ a.role ≠ .admin) := by tauto
  constructor
  · intro hu
    simp [addToGroup, hg, addToSet, hu]
  · intro hu
    refine ⟨by simp [addToGroup, hg, addToSet, hu], by simp, ?_⟩
    simp [addToGroup, hg, addToSet]

/-- Witness for C8: the group admin of c8Chat adds user 3 twice; the first
call appends 3, the second leaves the member array unchanged. -/
theorem c8_addToGroup_idempotent_witness :
    addToGroup ⟨1, .student⟩ [3] c8Chat =
      .ok { c8Chat with users := c8Chat.users ++ [3] } ∧
    (c8Chat.users ++ [3]).length = c8Chat.users.length + 1 ∧
    addToGroup ⟨1, .student⟩ [3] { c8Chat with users := c8Chat.users ++ [3] } =
      .ok { c8Chat with users := c8Chat.users ++ [3] } :=
  (c8_addToGroup_idempotent ⟨1, .student⟩ c8Chat 3 (Or.inl rfl)).2 (by decide)

/-- When the content exists, verifyContent persists isVerified true, reports
success whatever the notification outcome was, the persist is the first side
effect, and the notification attempt is addressed to the uploader of the
item. -/
theorem verifyContent_persist_notify (delivered : Bool)
    (db : List VerifiableContent) (cid : Nat) (c : VerifiableContent)
    (hfind : db.find? (fun x => x.id = cid) = some c) :
    ∃ r, verifyContent delivered db cid = .ok r ∧
      r.httpSuccess = true ∧
      (∀ x ∈ r.db, x.id = cid → x.isVerified = true) ∧
      r.events.head? = some (.persisted cid true) ∧
      VerifyEv.notifyAttempt c.uploadedBy delivered ∈ r.events := by
  unfold verifyContent
  rw [hfind]
  refine ⟨_, rfl, rfl, ?_, rfl, by simp⟩
  intro x hx hxid
  simp only [List.mem_map] at hx
  obtain ⟨y, hy, hxy⟩ := hx
  by_cases h : y.id = cid
  · rw [if_pos h] at hxy
    rw [← hxy]
  · rw [if_neg h] at hxy
    rw [← hxy] at hxid
    exact absurd hxid h

/-- C9, counterexample: verifyNote is a verification operation that
transitions the concrete note of user 8 from unverified to verified and
reports success, yet the request dispatches no notification at all, so it
is not true that every verification operation queues a notification
addressed to the original uploader. -/
theorem c9_counterexample :
    c9Note.isVerified = false ∧
    (verifyNoteRequest ⟨7, .teacher⟩ c9Note).map
      (fun o => (o.content.isVerified, o.httpSuccess, o.notifications)) =
      .ok (true, true, []) :=
  ⟨rfl, rfl⟩

/-- C9, amended: the bulk verifyContent endpoint queues a notification
addressed to the original uploader after the verification is persisted, and
a notification failure never fails or rolls back the verification; the
per-type endpoints verifyNote, verifyVideo and verifyPYQ persist
isVerified = true and report success without queueing any notification. -/
theorem c9_amended_verify_notification :
    (∀ (delivered : Bool) (db : List VerifiableContent) (cid : Nat)
        (c : VerifiableContent),
      db.find? (fun x => x.id = cid) = some c →
      ∃ r, verifyContent delivered db cid = .ok r ∧
        r.httpSuccess = true ∧
        (∀ x ∈ r.db, x.id = cid → x.isVerified = true) ∧
        r.events.head? = some (.persisted cid true) ∧
        VerifyEv.notifyAttempt c.uploadedBy delivered ∈ r.events) ∧
    (∀ (a : Actor) (n : Note), (a.role = .admin ∨ a.role = .teacher) →
      ∃ o, verifyNoteRequest a n = .ok o ∧ o.content.isVerified = true ∧
        o.httpSuccess = true ∧ o.notifications = []) ∧
    (∀ (a : Actor) (v : Video), (a.role = .admin ∨ a.role = .teacher) →
      ∃ o, verifyVideoRequest a v = .ok o ∧ o.content.isVerified = true ∧
        o.httpSuccess = true ∧ o.notifications = []) ∧
    (∀ (a : Actor) (p : PYQ), (a.role = .admin ∨ a.role = .teacher) →
      ∃ o, verifyPYQRequest a p = .ok o ∧ o.content.isVerified = true ∧
        o.httpSuccess = true ∧ o.notifications = []) := by
  refine ⟨verifyContent_persist_notify, ?_, ?_, ?_⟩
  · intro a n hr
    refine ⟨_, by rw [verifyNoteRequest, if_pos hr], ?_, rfl, rfl⟩
    show (notePreSave _).isVerified = true
    unfold notePreSave
    split_ifs <;> rfl
  · intro a v hr
    exact ⟨_, by rw [verifyVideoRequest, if_pos hr], rfl, rfl, rfl⟩
  · intro a p hr
    exact ⟨_, by rw [verifyPYQRequest, if_pos hr], rfl, rfl, rfl⟩

/-- Witness for the amended C9: verifying content 6 in the concrete
collection succeeds even when the notification is not delivered, and the
per-type verifyNote request of a teacher on the concrete note succeeds. -/
theorem c9_amended_verify_notification_witness :
    isSuccess (verifyContent false c9Db 6) = true ∧
    isSuccess (verifyNoteRequest ⟨7, .teacher⟩ c9Note) = true := by
  obtain ⟨hc, hn, -, -⟩ := c9_amended_verify_notification
  obtain ⟨r, h1, -, -, -, -⟩ := hc false c9Db 6 ⟨6, "t", 8, false⟩ rfl
  obtain ⟨o, h2, -, -, -⟩ := hn ⟨7, .teacher⟩ c9Note (Or.inr rfl)
  rw [h1, h2]
  exact ⟨rfl, rfl⟩

/-- $addToSet keeps existing members. -/
theorem mem_addToSet_of_mem {l : List Nat} {x y : Nat} (h : y ∈ l) :
    y ∈ addToSet l x := by
  unfold addToSet
  split_ifs <;> simp [h]

/-- Folding $addToSet over a list keeps existing members. -/
theorem mem_foldl_addToSet {l : List Nat} {y : Nat} (ids : List Nat)
    (h : y ∈ l) : y ∈ ids.foldl addToSet l := by
  induction ids generalizing l with
  | nil => exact h
  | cons i is ih => exact ih (mem_addToSet_of_mem h)

/-- $pull keeps every member other than the pulled one. -/
theorem mem_pull_of_ne {l : List Nat} {x y : Nat} (h : y ∈ l) (hne : y ≠ x) :
    y ∈ pull l x := by
  simp [pull, List.mem_filter, h, hne]

/-- The pre-save hook never changes isVerified. -/
theorem isVerified_notePreSave (n : Note) :
    (notePreSave n).isVerified = n.isVerified := by
  unfold notePreSave
  split_ifs <;> rfl

/-- Every membership operation other than an app-admin eviction of the group
admin keeps the group admin inside the member array. -/
theorem groupAdmin_mem_applyChatEvent (e : ChatEvent) (c : GroupChat)
    (h : c.groupAdmin ∈ c.users) (hne : ¬ adminEviction e c) :
    (applyChatEvent e c).groupAdmin ∈ (applyChatEvent e c).users := by
  cases e with
  | join a =>
    by_cases h1 : c.isPublic ∧ c.isGroupChat
    · by_cases h2 : a.id ∈ c.users
      · simp [applyChatEvent, runChatEvent, joinGroup, h1, h2, h]
      · simp [applyChatEvent, runChatEvent, joinGroup, h1, h2]
        exact mem_addToSet_of_mem h
    · simp [applyChatEvent, runChatEvent, joinGroup, h1, h]
  | leave a =>
    by_cases h1 : c.isGroupChat
    · by_cases h2 : a.id ∈ c.users
      · by_cases h3 : c.groupAdmin = a.id
        · simp [applyChatEvent, runChatEvent, leaveGroup, h1, h2, h3, h]
        · simp [applyChatEvent, runChatEvent, leaveGroup, h1, h2, h3]
          exact mem_pull_of_ne h h3
      · simp [applyChatEvent, runChatEvent, leaveGroup, h1, h2, h]
    · simp [applyChatEvent, runChatEvent, leaveGroup, h1, h]
  | addUsers a ids =>
    by_cases h1 : c.groupAdmin ≠ a.id ∧ a.role ≠ .admin
    · simp [applyChatEvent, runChatEvent, addToGroup, h1, h]
    · simp [applyChatEvent, runChatEvent, addToGroup, h1]
      exact mem_foldl_addToSet ids h
  | removeUser a t =>
    have hne2 : ¬ (t = c.groupAdmin ∧ a.role = Role.admin) := hne
    by_cases h1 : ¬ (t = a.id) ∧ ¬ (c.groupAdmin = a.id) ∧ ¬ (a.role = Role.admin)
    · simp [applyChatEvent, runChatEvent, removeFromGroup, h1, h]
    · by_cases h2 : t = c.groupAdmin ∧ ¬ (a.role = Role.admin)
      · simp [applyChatEvent, runChatEvent, removeFromGroup, h1, h2]
        split_ifs <;> simp [h]
      · have ht : c.groupAdmin ≠ t := by tauto
        simp [applyChatEvent, runChatEvent, removeFromGroup, h1, h2]
        exact mem_pull_of_ne h ht
  | transfer a t db =>
    by_cases h1 : c.groupAdmin ≠ a.id ∧ a.role ≠ .admin
    · simp [applyChatEvent, runChatEvent, transferGroupOwnership, h1, h]
    · by_cases h2 : t ∈ db
      · by_cases h3 : t ∈ c.users
        · simp [applyChatEvent, runChatEvent, transferGroupOwnership, h1, h2, h3]
        · simp [applyChatEvent, runChatEvent, transferGroupOwnership, h1, h2, h3, h]
      · simp [applyChatEvent, runChatEvent, transferGroupOwnership, h1, h2, h]

/-- In every state reachable without an app-admin eviction, the group admin
is a member of the chat. -/
theorem reachableSafe_admin_mem (c : GroupChat) (h : ReachableSafe c) :
    c.groupAdmin ∈ c.users := by
  induction h with
  | create creator ids pub => simp [createGroupChat]
  | step c e hr hne ih => exact groupAdmin_mem_applyChatEvent e c ih hne

/-- The group admin can never leave a group. -/
theorem leaveGroup_blocks_admin (a : Actor) (c : GroupChat)
    (ha : a.id = c.groupAdmin) : isSuccess (leaveGroup a c) = false := by
  by_cases h1 : c.isGroupChat
  · by_cases h2 : a.id ∈ c.users
    · simp [leaveGroup, h1, h2, ha.symm, isSuccess]
    · simp [leaveGroup, h1, h2, isSuccess]
  · simp [leaveGroup, h1, isSuccess]

/-- Nobody but an app admin can remove the group admin. -/
theorem removeFromGroup_blocks_admin (a : Actor) (c : GroupChat)
    (hrole : a.role ≠ .admin) :
    isSuccess (removeFromGroup a c.groupAdmin c) = false := by
  by_cases h1 : ¬ (c.groupAdmin = a.id) ∧ ¬ (c.groupAdmin = a.id) ∧
      ¬ (a.role = Role.admin)
  · simp [removeFromGroup, isSuccess, h1]
  · by_cases h3 : c.groupAdmin = a.id <;>
      simp [removeFromGroup, isSuccess, h1, hrole, h3]

/-- C2, counterexample: the state reached by creating a group (admin is user
1, member 2) and having an app admin remove user 1 is reachable through the
exposed operations, yet its groupAdmin is not a member of its user set, so
it is not true that in every reachable state exactly one member of the user
set is the groupAdmin. -/
theorem c2_counterexample :
    Reachable c2ChatBad ∧ c2ChatBad.groupAdmin ∉ c2ChatBad.users :=
  ⟨Reachable.step c2Chat0 (.removeUser ⟨99, .admin⟩ 1)
    (Reachable.create ⟨1, .student⟩ [2] true),
   by decide⟩

/-- C2, amended: the groupAdmin reference designates a single user; in every
state reachable without an app admin removing the current group admin, that
user is a member of the chat user set; the group admin can never be removed
via leave, and can be removed via remove only by an app admin, so a
non-app-admin removal requires a prior ownership transfer. -/
theorem c2_amended_admin_invariant (c : GroupChat) (h : ReachableSafe c) :
    c.groupAdmin ∈ c.users ∧
    (∀ a : Actor, a.id = c.groupAdmin → isSuccess (leaveGroup a c) = false) ∧
    (∀ a : Actor, a.role ≠ .admin →
      isSuccess (removeFromGroup a c.groupAdmin c) = false) :=
  ⟨reachableSafe_admin_mem c h,
   fun a ha => leaveGroup_blocks_admin a c ha,
   fun a hrole => removeFromGroup_blocks_admin a c hrole⟩

/-- Witness for the amended C2 on the freshly created concrete group: the
admin is a member, cannot leave, and member 2 cannot remove the admin. -/
theorem c2_amended_admin_invariant_witness :
    c2Chat0.groupAdmin ∈ c2Chat0.users ∧
    isSuccess (leaveGroup ⟨1, .student⟩ c2Chat0) = false ∧
    isSuccess (removeFromGroup ⟨2, .student⟩ c2Chat0.groupAdmin c2Chat0) = false := by
  have h := c2_amended_admin_invariant c2Chat0
    (ReachableSafe.create ⟨1, .student⟩ [2] true)
  exact ⟨h.1, h.2.1 ⟨1, .student⟩ rfl, h.2.2 ⟨2, .student⟩ (by decide)⟩

/-- No note operation turns isVerified off. -/
theorem isVerified_applyNoteOp (op : NoteOp) (n : Note)
    (h : n.isVerified = true) : (applyNoteOp op n).isVerified = true := by
  cases op with
  | view =>
    simp [applyNoteOp, runNoteOp, incrementNoteViews, isVerified_notePreSave, h]
  | download =>
    simp [applyNoteOp, runNoteOp, downloadNote, isVerified_notePreSave, h]
  | verify a =>
    by_cases hr : a.role = .admin ∨ a.role = .teacher <;>
      simp [applyNoteOp, runNoteOp, verifyNote, hr, isVerified_notePreSave, h]
  | update a upd f =>
    by_cases hg : n.uploadedBy ≠ a.id ∧ a.role ≠ .admin
    · simp [applyNoteOp, runNoteOp, updateNote, hg, h]
    · cases f <;> simp [applyNoteOp, runNoteOp, updateNote, hg, h]
  | rate a v comm =>
    simp only [applyNoteOp, runNoteOp, addRating]
    split_ifs with hv
    · exact h
    all_goals simp [isVerified_notePreSave, h]

/-- No video operation turns isVerified off. -/
theorem isVerified_applyVideoOp (op : VideoOp) (v : Video)
    (h : v.isVerified = true) : (applyVideoOp op v).isVerified = true := by
  cases op with
  | view => simp [applyVideoOp, runVideoOp, h]
  | verify a =>
    by_cases hr : a.role = .admin ∨ a.role = .teacher <;>
      simp [applyVideoOp, runVideoOp, verifyVideo, hr, h]
  | update a upd =>
    by_cases hg : v.uploadedBy ≠ a.id ∧ a.role ≠ .admin
    · simp [applyVideoOp, runVideoOp, updateVideo, hg, h]
    · cases hy : upd.youtubeUrl with
      | none => simp [applyVideoOp, runVideoOp, updateVideo, hg, hy, h]
      | some url =>
        by_cases hne : url ≠ v.videoUrl <;>
          simp [applyVideoOp, runVideoOp, updateVideo, hg, hy, hne, h]
  | like a =>
    by_cases hm : a.id ∈ v.usersLiked <;>
      simp [applyVideoOp, runVideoOp, likeVideo, hm, h]
  | comment a t =>
    by_cases ht : t = "" <;>
      simp [applyVideoOp, runVideoOp, addComment, ht, h]
  | uncomment a i =>
    simp only [applyVideoOp, runVideoOp, deleteComment]
    cases hidx : v.comments[i]? with
    | none => exact h
    | some cm =>
      by_cases hg : cm.user ≠ a.id ∧ a.role ≠ Role.admin
      · simp [hg, h]
      · simp [hg, h]

/-- No PYQ operation turns isVerified off. -/
theorem isVerified_applyPYQOp (op : PYQOp) (p : PYQ)
    (h : p.isVerified = true) : (applyPYQOp op p).isVerified = true := by
  cases op with
  | view => simp [applyPYQOp, runPYQOp, h]
  | download => simp [applyPYQOp, runPYQOp, h]
  | verify a =>
    by_cases hr : a.role = .admin ∨ a.role = .teacher <;>
      simp [applyPYQOp, runPYQOp, verifyPYQ, hr, h]
  | update a upd f sf =>
    by_cases hg : p.uploadedBy ≠ a.id ∧ a.role ≠ .admin
    · simp [applyPYQOp, runPYQOp, updatePYQ, hg, h]
    · cases f <;> cases sf <;> simp [applyPYQOp, runPYQOp, updatePYQ, hg, h]
  | solution a f =>
    by_cases hr : a.role = .admin ∨ a.role = .teacher
    · cases f <;> simp [applyPYQOp, runPYQOp, addSolution, hr, h]
    · simp [applyPYQOp, runPYQOp, addSolution, hr, h]

/-- No sequence of note operations turns isVerified off. -/
theorem isVerified_applyNoteOps (ops : List NoteOp) (n : Note)
    (h : n.isVerified = true) : (applyNoteOps ops n).isVerified = true := by
  induction ops generalizing n with
  | nil => exact h
  | cons op ops ih => exact ih (applyNoteOp op n) (isVerified_applyNoteOp op n h)

/-- No sequence of video operations turns isVerified off. -/
theorem isVerified_applyVideoOps (ops : List VideoOp) (v : Video)
    (h : v.isVerified = true) : (applyVideoOps ops v).isVerified = true := by
  induction ops generalizing v with
  | nil => exact h
  | cons op ops ih => exact ih (applyVideoOp op v) (isVerified_applyVideoOp op v h)

/-- No sequence of PYQ operations turns isVerified off. -/
theorem isVerified_applyPYQOps (ops : List PYQOp) (p : PYQ)
    (h : p.isVerified = true) : (applyPYQOps ops p).isVerified = true := by
  induction ops generalizing p with
  | nil => exact h
  | cons op ops ih => exact ih (applyPYQOp op p) (isVerified_applyPYQOp op p h)

/-- C3: isVerified moves only from unverified to verified: no sequence of
exposed operations (verify, update, rate, like, comment, download, view) on
a verified note, video or PYQ ever makes it unverified again.  A syllabus
document carries no isVerified flag at all, so the property is vacuous for
that type. -/
theorem c3_isVerified_one_way (nops : List NoteOp) (n : Note)
    (vops : List VideoOp) (v : Video) (pops : List PYQOp) (p : PYQ) :
    (n.isVerified = true → (applyNoteOps nops n).isVerified = true) ∧
    (v.isVerified = true → (applyVideoOps vops v).isVerified = true) ∧
    (p.isVerified = true → (applyPYQOps pops p).isVerified = true) :=
  ⟨isVerified_applyNoteOps nops n,
   isVerified_applyVideoOps vops v,
   isVerified_applyPYQOps pops p⟩

/-- Witness for C3: a concrete verified note, video and PYQ stay verified
across concrete request sequences. -/
theorem c3_isVerified_one_way_witness :
    c3Note.isVerified = true ∧
    (applyNoteOps c3NoteOps c3Note).isVerified = true ∧
    (applyVideoOps [.view, .like ⟨5, .student⟩] c3Video).isVerified = true ∧
    (applyPYQOps [.download] c3PYQ).isVerified = true := by
  have h := c3_isVerified_one_way c3NoteOps c3Note
    [.view, .like ⟨5, .student⟩] c3Video [.download] c3PYQ
  exact ⟨rfl, h.1 rfl, h.2.1 rfl, h.2.2 rfl⟩

/-- A chat id is among the ids of the chats of a user exactly when some
chat with that id has the user as a member. -/
theorem mem_userChatIds (u : Nat) (chats : List ChatRef) (x : Nat) :
    x ∈ userChatIds u chats ↔ ∃ c ∈ chats, c.id = x ∧ u ∈ c.users := by
  simp only [userChatIds, List.mem_map, List.mem_filter, decide_eq_true_eq]
  constructor
  · rintro ⟨c, ⟨hc, hu⟩, hid⟩
    exact ⟨c, hc, hid, hu⟩
  · rintro ⟨c, hc, hid, hu⟩
    exact ⟨c, ⟨hc, hu⟩, hid⟩

/-- The aggregate unread total of the implementation equals the number of
messages satisfying the spec condition. -/
theorem totalUnread_eq_spec (u : Nat) (chats : List ChatRef)
    (msgs : List MessageDoc) :
    totalUnread u chats msgs = specUnreadTotal u chats msgs := by
  unfold totalUnread specUnreadTotal
  congr 1
  apply List.filter_congr
  intro m _
  rw [Bool.eq_iff_iff]
  simp only [unreadMatch, Bool.and_eq_true, decide_eq_true_eq,
    Bool.not_eq_true', mem_userChatIds]
  tauto

/-- After the bulk mark-as-read of a chat, every message of that chat lists
the user in readBy. -/
theorem mem_readBy_markMessagesRead (u cid : Nat) (msgs : List MessageDoc) :
    ∀ m ∈ markMessagesRead u cid msgs, m.chat = cid → u ∈ m.readBy := by
  intro m hm hchat
  simp only [markMessagesRead, List.mem_map] at hm
  obtain ⟨m0, hm0, hmm⟩ := hm
  by_cases hc : m0.chat = cid ∧ u ∉ m0.readBy
  · rw [if_pos hc] at hmm
    rw [← hmm]
    simp
  · rw [if_neg hc] at hmm
    subst hmm
    push_neg at hc
    exact hc hchat

/-- After the bulk mark-as-read of a chat, the unread count of that chat for
the user is zero. -/
theorem unreadCountInChat_markMessagesRead (u cid : Nat)
    (msgs : List MessageDoc) :
    unreadCountInChat u cid (markMessagesRead u cid msgs) = 0 := by
  unfold unreadCountInChat
  simp only [List.length_eq_zero, List.filter_eq_nil_iff]
  intro m hm
  by_cases hchat : m.chat = cid
  · have hread := mem_readBy_markMessagesRead u cid msgs m hm hchat
    simp [hchat, hread]
  · simp [hchat]

/-- C6: the unread total equals the number of messages across the chats the
user belongs to whose sender is someone else, not yet read by the user and
not soft-deleted; and when a member fetches a chat message page, every
message of that chat carries the user in readBy afterwards, so the unread
count of that chat drops to zero. -/
theorem c6_unread_count (u : Nat) (chats : List ChatRef)
    (msgs : List MessageDoc) (chat : ChatRef) (page limit : Nat) :
    totalUnread u chats msgs = specUnreadTotal u chats msgs ∧
    (u ∈ chat.users →
      getMessages u chat msgs page limit =
        .ok (((msgs.filter (fun m => m.chat = chat.id)).drop
               ((page - 1) * limit)).take limit,
             markMessagesRead u chat.id msgs) ∧
      (∀ m ∈ markMessagesRead u chat.id msgs, m.chat = chat.id →
        u ∈ m.readBy) ∧
      unreadCountInChat u chat.id (markMessagesRead u chat.id msgs) = 0) := by
  refine ⟨totalUnread_eq_spec u chats msgs, fun hu => ⟨?_, ?_, ?_⟩⟩
  · simp [getMessages, hu]
  · exact mem_readBy_markMessagesRead u chat.id msgs
  · exact unreadCountInChat_markMessagesRead u chat.id msgs

/-- Witness for C6: in the concrete world, user 1 has one unread message,
and after fetching the page of chat 10 the marked store has a zero unread
count for that chat. -/
theorem c6_unread_count_witness :
    totalUnread 1 c6Chats c6Msgs = specUnreadTotal 1 c6Chats c6Msgs ∧
    totalUnread 1 c6Chats c6Msgs = 1 ∧
    unreadCountInChat 1 c6Chat.id (markMessagesRead 1 c6Chat.id c6Msgs) = 0 := by
  have h := c6_unread_count 1 c6Chats c6Msgs c6Chat 1 50
  exact ⟨h.1, by decide, (h.2 (by decide)).2.2⟩

/-- Overwriting the first rating of a user keeps the length of the ratings
array. -/
theorem updateFirstRating_length (u v : Nat) (comm : Option String)
    (rs : List RatingEntry) :
    (updateFirstRating u v comm rs).length = rs.length := by
  induction rs with
  | nil => rfl
  | cons r rs ih =>
    simp only [updateFirstRating]
    split_ifs with h <;> simp [ih]

/-- Overwriting the first rating of a user keeps, for every user, the number
of rating entries of that user. -/
theorem filter_user_updateFirstRating (w u v : Nat) (comm : Option String)
    (rs : List RatingEntry) :
    ((updateFirstRating u v comm rs).filter (fun r => r.user = w)).length =
      (rs.filter (fun r => r.user = w)).length := by
  induction rs with
  | nil => rfl
  | cons r rs ih =>
    simp only [updateFirstRating]
    split_ifs with h
    · simp only [List.filter_cons]
      split_ifs <;> simp_all
    · simp only [List.filter_cons]
      split_ifs <;> simp [ih]

/-- A user that appears in the ratings array has at least one entry. -/
theorem one_le_count_of_any (u : Nat) (rs : List RatingEntry)
    (h : rs.any (fun r => r.user = u) = true) :
    1 ≤ (rs.filter (fun r => r.user = u)).length := by
  simp only [List.any_eq_true, decide_eq_true_eq] at h
  obtain ⟨r, hr, hru⟩ := h
  have hmem : r ∈ rs.filter (fun r => r.user = u) := by
    simp [List.mem_filter, hr, hru]
  exact List.length_pos_of_mem hmem

/-- A user that appears nowhere in the ratings array has no entry. -/
theorem count_eq_zero_of_not_any (u : Nat) (rs : List RatingEntry)
    (h : ¬ rs.any (fun r => r.user = u) = true) :
    (rs.filter (fun r => r.user = u)).length = 0 := by
  simp only [List.any_eq_true, decide_eq_true_eq, not_exists] at h
  simp only [List.length_eq_zero, List.filter_eq_nil_iff]
  intro r hr
  simp only [decide_eq_true_eq]
  intro hru
  exact h r ⟨hr, hru⟩

/-- The pre-save hook never changes the ratings array. -/
theorem ratings_notePreSave (n : Note) :
    (notePreSave n).ratings = n.ratings := by
  unfold notePreSave
  split_ifs <;> rfl

/-- On a nonempty ratings array, the pre-save hook stores the mean. -/
theorem averageRating_notePreSave (n : Note) (h : 0 < n.ratings.length) :
    (notePreSave n).averageRating = noteMean n.ratings := by
  unfold notePreSave
  rw [if_pos h]

/-- A valid addRating request succeeds with the ratings array either
overwritten in place or extended by the new entry. -/
theorem addRating_ok_eq (a : Actor) (value : Nat) (comm : Option String)
    (n : Note) (hv : ¬ (value < 1 ∨ value > 5)) :
    addRating a value comm n =
      .ok (notePreSave { n with
        ratings :=
          if n.ratings.any (fun r => r.user = a.id) then
            updateFirstRating a.id value comm n.ratings
          else n.ratings ++ [{ rating := value, comment := comm, user := a.id }]
        averageRating := noteMean
          (if n.ratings.any (fun r => r.user = a.id) then
            updateFirstRating a.id value comm n.ratings
          else n.ratings ++ [{ rating := value, comment := comm, user := a.id }]) }) := by
  unfold addRating
  rw [if_neg hv]

/-- C7: under the invariant of at most one rating entry per user, a
successful rating by a user leaves exactly one entry of that user, keeps the
entry counts of every other user, preserves the at-most-one invariant, does
not grow the array when the user had already rated, and stores averageRating
as the arithmetic mean of the stored rating values. -/
theorem c7_rating_upsert (a : Actor) (value : Nat) (comm : Option String)
    (n n2 : Note)
    (hpre : ∀ w, (n.ratings.filter (fun r => r.user = w)).length ≤ 1)
    (hok : addRating a value comm n = .ok n2) :
    ((n2.ratings.filter (fun r => r.user = a.id)).length = 1) ∧
    (∀ w, w ≠ a.id →
      (n2.ratings.filter (fun r => r.user = w)).length =
        (n.ratings.filter (fun r => r.user = w)).length) ∧
    (∀ w, (n2.ratings.filter (fun r => r.user = w)).length ≤ 1) ∧
    ((n.ratings.any (fun r => r.user = a.id)) = true →
      n2.ratings.length = n.ratings.length) ∧
    n2.averageRating = noteMean n2.ratings := by
  by_cases hv : value < 1 ∨ value > 5
  · exfalso
    unfold addRating at hok
    rw [if_pos hv] at hok
    exact Except.noConfusion hok
  · rw [addRating_ok_eq a value comm n hv] at hok
    have hok2 := (Except.ok.injEq _ _).mp hok
    by_cases hany : (n.ratings.any fun r => r.user = a.id) = true
    · have hlen : 0 < n.ratings.length := by
        simp only [List.any_eq_true] at hany
        obtain ⟨r, hr, -⟩ := hany
        exact List.length_pos_of_mem hr
      have hRlen : 0 < (updateFirstRating a.id value comm n.ratings).length := by
        rw [updateFirstRating_length]; exact hlen
      have hn2 : n2.ratings = updateFirstRating a.id value comm n.ratings := by
        rw [← hok2, if_pos hany, ratings_notePreSave]
      have havg : n2.averageRating = noteMean n2.ratings := by
        rw [← hok2, if_pos hany, averageRating_notePreSave _ (by simpa using hRlen),
          ratings_notePreSave]
      refine ⟨?_, ?_, ?_, ?_, havg⟩
      · rw [hn2, filter_user_updateFirstRating]
        exact le_antisymm (hpre a.id) (one_le_count_of_any a.id n.ratings hany)
      · intro w _
        rw [hn2, filter_user_updateFirstRating]
      · intro w
        rw [hn2, filter_user_updateFirstRating]
        exact hpre w
      · intro _
        rw [hn2, updateFirstRating_length]
    · have hzero := count_eq_zero_of_not_any a.id n.ratings hany
      have hn2 : n2.ratings =
          n.ratings ++ [{ rating := value, comment := comm, user := a.id }] := by
        rw [← hok2, if_neg hany, ratings_notePreSave]
      have havg : n2.averageRating = noteMean n2.ratings := by
        rw [← hok2, if_neg hany, averageRating_notePreSave _ (by simp),
          ratings_notePreSave]
      refine ⟨?_, ?_, ?_, ?_, havg⟩
      · rw [hn2, List.filter_append]
        simp [hzero]
      · intro w hw
        rw [hn2, List.filter_append]
        simp [Ne.symm hw]
      · intro w
        by_cases hwa : w = a.id
        · subst hwa
          rw [hn2, List.filter_append]
          simp [hzero]
        · rw [hn2, List.filter_append]
          have hne : ¬ (a.id = w) := fun h => hwa h.symm
          simp only [List.filter_cons, List.filter_nil, decide_eq_true_eq]
          rw [if_neg hne]
          simpa using hpre w
      · intro hc
        exact absurd hc hany

/-- Witness for C7: user 5 rates the concrete note a second time; the stored
note keeps a single entry for user 5 and its averageRating is the mean of
the stored ratings. -/
theorem c7_rating_upsert_witness :
    ((c7NoteRated.ratings.filter (fun r => r.user = 5)).length = 1) ∧
    c7NoteRated.ratings.length = c7Note.ratings.length ∧
    c7NoteRated.averageRating = noteMean c7NoteRated.ratings := by
  have h := c7_rating_upsert ⟨5, .student⟩ 4 none c7Note c7NoteRated
    (fun w => le_trans (List.length_filter_le _ _) (by decide)) rfl
  exact ⟨h.1, h.2.2.2.1 rfl, h.2.2.2.2⟩

end StudentPortal
